import Mathlib

/-!
Shallow embedding of the KaleidoSwap registry front-end (src/src/App.tsx and
the variants under src/unnamed): the data model, the error normalisation of
the two fetchers, and the client-side filter/sort pipeline, together with
proofs of the testable properties stated for them.

JavaScript strings are modelled as lists of characters; `toLowerCase` as a
character-wise lowering; `includes` as contiguous-substring containment;
`Array.prototype.filter` as `List.filter`; `Array.prototype.sort` (stable in
ES2019 and later) as stable insertion sort under the source comparator.
-/

namespace Registry

/-- A JavaScript string, modelled as its list of characters. -/
abbrev JStr := List Char

/-- Coerce a Lean string literal into the model. -/
def str (s : String) : JStr := s.data

/-- `s.toLowerCase()` modelled character-wise. -/
def lowerStr (s : JStr) : JStr := s.map Char.toLower

/-- `startsWithList pat s` is true when `pat` is an initial segment of `s`. -/
def startsWithList : JStr → JStr → Bool
  | [], _ => true
  | _ :: _, [] => false
  | a :: pat, b :: s => a == b && startsWithList pat s

/-- `s.includes(pat)` in JavaScript: `pat` occurs contiguously inside `s`. -/
def includesList : JStr → JStr → Bool
  | [], pat => startsWithList pat []
  | c :: s, pat => startsWithList pat (c :: s) || includesList s pat

/-- The `Pair` interface of App.tsx (lines 33-44). -/
structure Pair where
  id : JStr
  base_asset : JStr
  base_asset_id : JStr
  quote_asset : JStr
  quote_asset_id : JStr
  is_active : Bool
  min_order_size : Int
  max_order_size : Int
  price_precision : Nat
  quantity_precision : Nat
deriving DecidableEq, Repr

/-- The balance breakdown nested in the `Asset` interface (App.tsx lines 24-30). -/
structure Balance where
  settled : Nat
  future : Nat
  spendable : Nat
  offchain_outbound : Nat
  offchain_inbound : Nat
deriving DecidableEq, Repr

/-- The `Asset` interface of App.tsx (lines 16-31). -/
structure Asset where
  asset_id : JStr
  asset_iface : JStr
  ticker : JStr
  name : JStr
  precision : Nat
  issued_supply : Nat
  is_active : Bool
  balance : Balance
deriving DecidableEq, Repr

/-- The predicate of the `filteredPairs` filter (App.tsx lines 109-113):
the pair matches when the lowercase `base_asset ++ "/" ++ quote_asset`
string, the lowercase base asset id, or the lowercase quote asset id
contains the lowercase filter text. -/
def pairMatches (filt : JStr) (pair : Pair) : Bool :=
  includesList (lowerStr (pair.base_asset ++ '/' :: pair.quote_asset)) (lowerStr filt)
  || includesList (lowerStr pair.base_asset_id) (lowerStr filt)
  || includesList (lowerStr pair.quote_asset_id) (lowerStr filt)

/-- `filteredPairs` (App.tsx lines 109-113), the filter applied to the
fetched pairs array. -/
def filteredPairs (pairs : List Pair) (filt : JStr) : List Pair :=
  pairs.filter (fun p => pairMatches filt p)

/-- The sort direction of the `sortConfig` state. -/
inductive Direction where
  | asc
  | desc
deriving DecidableEq, Repr

/-- The comparator passed to `sort` inside `sortData` (App.tsx lines 102-106):
`-1` when `a[key] < b[key]` (flipped for descending), `1` when
`a[key] > b[key]` (flipped for descending), else `0`. The field access
`a[key]` is modelled by a key function into a linearly ordered type. -/
def sortCmp {T V : Type} [LinearOrder V] (key : T → V) (dir : Direction) (a b : T) : Int :=
  if key a < key b then (match dir with | .asc => -1 | .desc => 1)
  else if key b < key a then (match dir with | .asc => 1 | .desc => -1)
  else 0

/-- `sortData` (App.tsx lines 101-107): `[...data].sort(comparator)`.
`Array.prototype.sort` is a stable sort, modelled as insertion sort under
the relation `comparator a b ≤ 0`. -/
def sortData {T V : Type} [LinearOrder V] (data : List T) (key : T → V) (dir : Direction) : List T :=
  List.insertionSort (fun a b => sortCmp key dir a b ≤ 0) data

/-- The `ApiError` shape thrown by the two fetchers (App.tsx lines 10-14). -/
structure ApiError where
  message : JStr
  code : Option JStr
  details : Option JStr
deriving DecidableEq, Repr

/-- The observable part of an Axios-classified error as the fetchers read it:
`error.code` (optional transport code), `error.message` (raw error text),
and `error.response?.data?.message` (server-provided message body, absent
when no response or no message field is present). -/
structure AxiosError where
  code : Option JStr
  message : JStr
  responseDataMessage : Option JStr
deriving DecidableEq, Repr

/-- JavaScript `a || b` for an optional string `a`: takes `b` when `a` is
`undefined` or the empty string, both being falsy. -/
def jsOrString (a : Option JStr) (b : JStr) : JStr :=
  match a with
  | none => b
  | some s => if s = [] then b else s

/-- The catch branch of the assets `queryFn` (App.tsx lines 69-76) for an
Axios-classified error. -/
def normalizeAssetsError (e : AxiosError) : ApiError :=
  { message := str "Failed to fetch assets"
    code := e.code
    details := some (jsOrString e.responseDataMessage e.message) }

/-- The catch branch of the pairs `queryFn` (App.tsx lines 88-95) for an
Axios-classified error. -/
def normalizePairsError (e : AxiosError) : ApiError :=
  { message := str "Failed to fetch trading pairs"
    code := e.code
    details := some (jsOrString e.responseDataMessage e.message) }

/-- The `details` field as the specification sentence describes it: the
server-provided message body when one is present, otherwise the raw error
text. Stated from the words of the spec for comparison with the code. -/
def specClaimedDetails (e : AxiosError) : JStr :=
  match e.responseDataMessage with
  | some s => s
  | none => e.message

/-- The body of a successful pairs fetch. -/
structure PairsResponse where
  pairs : List Pair
deriving DecidableEq, Repr

/-- The body of a successful assets fetch. -/
structure AssetsResponse where
  assets : List Asset
deriving DecidableEq, Repr

/-- `pairsData?.pairs.filter(...) || []` (App.tsx lines 109-113): when the
fetched data is absent the optional chain is `undefined`, which is falsy, so
the derivation falls back to the empty array; a filtered array, even when
empty, is truthy and is kept. -/
def derivedFilteredPairs (pairsData : Option PairsResponse) (filt : JStr) : List Pair :=
  match pairsData with
  | some d => filteredPairs d.pairs filt
  | none => []

/-- `sortedPairs` (App.tsx lines 115-117): sort only when a sort
configuration is set and the filtered list is nonempty. The key of the
configuration is modelled as a key function into a linearly ordered type. -/
def sortedPairsView (V : Type) [LinearOrder V] (pairsData : Option PairsResponse)
    (filt : JStr) (sortConfig : Option ((Pair → V) × Direction)) : List Pair :=
  match sortConfig with
  | some c =>
    if (derivedFilteredPairs pairsData filt).length > 0
    then sortData (derivedFilteredPairs pairsData filt) c.1 c.2
    else derivedFilteredPairs pairsData filt
  | none => derivedFilteredPairs pairsData filt

/-- A heap of JavaScript arrays, to make mutation observable: each array
lives at an index and reads default to the empty array. -/
structure Store (α : Type) where
  arrays : List (List α)
deriving DecidableEq, Repr

/-- Read the array at reference `r`. -/
def Store.read {α : Type} (s : Store α) (r : Nat) : List α :=
  s.arrays.getD r []

/-- Allocate a fresh array, returning the new store and the new reference. -/
def Store.alloc {α : Type} (s : Store α) (xs : List α) : Store α × Nat :=
  (⟨s.arrays ++ [xs]⟩, s.arrays.length)

/-- `sortData` run against the array store: `[...data]` spreads the argument
array into a freshly allocated copy and `sort` reorders that copy in place,
so the result is a new reference and no existing array is written. -/
def sortDataRef {α V : Type} [LinearOrder V] (s : Store α) (r : Nat)
    (key : α → V) (dir : Direction) : Store α × Nat :=
  s.alloc (sortData (s.read r) key dir)

/-- The pair filter run against the array store: `Array.prototype.filter`
returns a freshly allocated array and leaves its receiver untouched. -/
def filterRef (s : Store Pair) (r : Nat) (filt : JStr) : Store Pair × Nat :=
  s.alloc (filteredPairs (s.read r) filt)

/-- The outcome of one `useQuery` fetch as its consumers observe it. -/
inductive FetchOutcome (α : Type) where
  | loading
  | failed (e : ApiError)
  | success (data : α)
deriving DecidableEq, Repr

/-- The `isLoading` flag of a fetch outcome. -/
def isLoadingOf {α : Type} : FetchOutcome α → Bool
  | .loading => true
  | _ => false

/-- The `error` value of a fetch outcome. -/
def errorOf {α : Type} : FetchOutcome α → Option ApiError
  | .failed e => some e
  | _ => none

/-- The `data` value of a fetch outcome. -/
def dataOf {α : Type} : FetchOutcome α → Option α
  | .success d => some d
  | _ => none

/-- The rendered state of the assets section (App.tsx lines 507-570):
a spinner flag, an optional error alert text, and the table rows. -/
structure AssetsSectionView where
  spinner : Bool
  alert : Option JStr
  rows : List Asset
deriving DecidableEq, Repr

/-- The assets section render (App.tsx lines 507-570): the spinner shows
while `isLoadingAssets`; the alert shows `assetsError.message` (falling back
to a generic text when that is falsy) when `assetsError` is set; the rows
are `assetsData?.assets`, empty when data is absent. Both fetch outcomes are
passed, as the whole render sees both, but only the assets outcome is read. -/
def assetsSection (a : FetchOutcome AssetsResponse) (_p : FetchOutcome PairsResponse) :
    AssetsSectionView :=
  { spinner := isLoadingOf a
    alert := (errorOf a).map (fun e => jsOrString (some e.message) (str "An unexpected error occurred"))
    rows := match dataOf a with | some d => d.assets | none => [] }

/-- The rendered state of the pairs section body (App.tsx lines 598-632). -/
inductive PairsSectionView where
  | loading
  | errorAlert
  | cards (pairs : List Pair)
deriving DecidableEq, Repr

/-- The pairs section render (App.tsx lines 598-632): a spinner when
`isLoadingPairs || isLoadingAssets`, the error alert when
`pairsError || assetsError`, otherwise the cards of `sortedPairs`. -/
def pairsSection (V : Type) [LinearOrder V] (a : FetchOutcome AssetsResponse)
    (p : FetchOutcome PairsResponse) (filt : JStr)
    (sortConfig : Option ((Pair → V) × Direction)) : PairsSectionView :=
  if isLoadingOf p || isLoadingOf a then .loading
  else if (errorOf p).isSome || (errorOf a).isSome then .errorAlert
  else .cards (sortedPairsView V (dataOf p) filt sortConfig)

/-- The empty pattern is contained in every string, as `includes` is in
JavaScript. -/
theorem includesList_nil (s : JStr) : includesList s [] = true := by
  induction s with
  | nil => rfl
  | cons c s ih => simp [includesList, startsWithList, ih]

/-- For ascending order the sort relation is `key a ≤ key b`. -/
theorem sortCmp_asc_le {T V : Type} [LinearOrder V] (key : T → V) (a b : T) :
    sortCmp key .asc a b ≤ 0 ↔ key a ≤ key b := by
  unfold sortCmp
  split_ifs with h1 h2
  · simp [le_of_lt h1]
  · simp [not_le.mpr h2]
  · simp [le_antisymm (not_lt.mp h2) (not_lt.mp h1)]

/-- For descending order the sort relation is `key b ≤ key a`. -/
theorem sortCmp_desc_le {T V : Type} [LinearOrder V] (key : T → V) (a b : T) :
    sortCmp key .desc a b ≤ 0 ↔ key b ≤ key a := by
  unfold sortCmp
  split_ifs with h1 h2
  · simp [not_le.mpr h1]
  · simp [le_of_lt h2]
  · simp [le_antisymm (not_lt.mp h1) (not_lt.mp h2)]

/-- The sort relation is total. -/
theorem sortRel_total {T V : Type} [LinearOrder V] (key : T → V) (dir : Direction) :
    IsTotal T (fun a b => sortCmp key dir a b ≤ 0) := by
  constructor
  intro a b
  cases dir
  · simp only [sortCmp_asc_le]
    exact le_total (key a) (key b)
  · simp only [sortCmp_desc_le]
    exact le_total (key b) (key a)

/-- The sort relation is transitive. -/
theorem sortRel_trans {T V : Type} [LinearOrder V] (key : T → V) (dir : Direction) :
    IsTrans T (fun a b => sortCmp key dir a b ≤ 0) := by
  constructor
  intro a b c hab hbc
  cases dir
  · simp only [sortCmp_asc_le] at hab hbc ⊢
    exact le_trans hab hbc
  · simp only [sortCmp_desc_le] at hab hbc ⊢
    exact le_trans hbc hab

/-- Membership is preserved by `sortData`. -/
theorem mem_sortData {T V : Type} [LinearOrder V] (S : List T) (key : T → V)
    (dir : Direction) (a : T) : a ∈ sortData S key dir ↔ a ∈ S :=
  (List.perm_insertionSort _ S).mem_iff

/-- Insertion sort leaves a list untouched when the relation holds between
every two of its elements. -/
theorem insertionSort_of_forall_rel {T : Type} (r : T → T → Prop) [DecidableRel r]
    (l : List T) (h : ∀ a ∈ l, ∀ b ∈ l, r a b) : List.insertionSort r l = l := by
  induction l with
  | nil => rfl
  | cons x l ih =>
    have hl : List.insertionSort r l = l :=
      ih (fun a ha b hb => h a (List.mem_cons_of_mem x ha) b (List.mem_cons_of_mem x hb))
    rw [List.insertionSort, hl]
    cases l with
    | nil => rfl
    | cons y l2 =>
      rw [List.orderedInsert,
        if_pos (h x (List.mem_cons_self x _) y (List.mem_cons_of_mem x (List.mem_cons_self y l2)))]

/-- Reading below the old length is unaffected by appending. -/
theorem getD_append_of_lt {α : Type} (l l2 : List α) (n : Nat) (d : α)
    (h : n < l.length) : (l ++ l2).getD n d = l.getD n d := by
  induction l generalizing n with
  | nil => simp at h
  | cons x l ih =>
    cases n with
    | zero => rfl
    | succ n =>
      simp only [List.cons_append, List.getD_cons_succ]
      exact ih n (by simp only [List.length_cons] at h; omega)

/-- Reading the newly appended slot yields the appended array. -/
theorem getD_append_length {α : Type} (l : List α) (x d : α) :
    (l ++ [x]).getD l.length d = x := by
  induction l with
  | nil => rfl
  | cons y l ih =>
    simp only [List.cons_append, List.length_cons, List.getD_cons_succ]
    exact ih

/-- C1: for every pair collection and filter text, the pair filter keeps
exactly the pairs whose lowercase base/quote concatenation, lowercase base
asset id, or lowercase quote asset id contains the lowercase filter text,
and the result is a subsequence of the input. -/
theorem filteredPairs_spec (P : List Pair) (t : JStr) :
    (filteredPairs P t).Sublist P
    ∧ ∀ p : Pair, p ∈ filteredPairs P t ↔
        p ∈ P ∧ (includesList (lowerStr (p.base_asset ++ '/' :: p.quote_asset)) (lowerStr t) = true
          ∨ includesList (lowerStr p.base_asset_id) (lowerStr t) = true
          ∨ includesList (lowerStr p.quote_asset_id) (lowerStr t) = true) := by
  constructor
  · exact List.filter_sublist P
  · intro p
    rw [filteredPairs, List.mem_filter]
    simp [pairMatches, Bool.or_eq_true, or_assoc]

/-- C6: the empty filter text is an identity for the pair filter. -/
theorem filteredPairs_empty_filter (P : List Pair) : filteredPairs P [] = P := by
  apply List.filter_eq_self.mpr
  intro p _
  simp [pairMatches, lowerStr, includesList_nil]

/-- C5: filtering an already-filtered collection returns it unchanged, and
sorting an already-sorted list with the same key and direction returns the
same sequence as sorting once. -/
theorem filter_sort_idempotent {T V : Type} [LinearOrder V] (P : List Pair) (t : JStr)
    (S : List T) (key : T → V) (dir : Direction) :
    filteredPairs (filteredPairs P t) t = filteredPairs P t
    ∧ sortData (sortData S key dir) key dir = sortData S key dir := by
  constructor
  · apply List.filter_eq_self.mpr
    intro p hp
    exact (List.mem_filter.mp hp).2
  · haveI := sortRel_total key dir
    haveI := sortRel_trans key dir
    exact (List.sorted_insertionSort (fun a b => sortCmp key dir a b ≤ 0) S).insertionSort_eq

/-- C9: when the comparator's two strict comparisons are false on every
element pair of the list, `sortData` returns the list in its original
order. -/
theorem sortData_all_ties_id {T V : Type} [LinearOrder V] (S : List T) (key : T → V)
    (dir : Direction)
    (h : ∀ a ∈ S, ∀ b ∈ S, ¬ key a < key b ∧ ¬ key b < key a) :
    sortData S key dir = S := by
  apply insertionSort_of_forall_rel
  intro a ha b hb
  have hcmp : sortCmp key dir a b = 0 := by
    unfold sortCmp
    rw [if_neg (h a ha b hb).1, if_neg (h a ha b hb).2]
  rw [hcmp]

/-- Witness for C9 at a concrete list whose keys are all equal. -/
theorem sortData_all_ties_id_witness :
    sortData [(1, 10), (1, 20), (1, 5)] (fun p : Nat × Nat => p.1) .asc
      = [(1, 10), (1, 20), (1, 5)] :=
  sortData_all_ties_id [(1, 10), (1, 20), (1, 5)] (fun p => p.1) .asc (by decide)

/-- C10: whether a pair passes the filter depends only on its `base_asset`,
`quote_asset`, `base_asset_id` and `quote_asset_id` fields. -/
theorem pairMatches_noninterference (t : JStr) (p q : Pair)
    (h1 : p.base_asset = q.base_asset) (h2 : p.quote_asset = q.quote_asset)
    (h3 : p.base_asset_id = q.base_asset_id) (h4 : p.quote_asset_id = q.quote_asset_id) :
    pairMatches t p = pairMatches t q := by
  simp [pairMatches, h1, h2, h3, h4]

/-- Witness for C10: two pairs sharing the four filter-relevant fields but
differing in id, activity, order sizes and precisions are treated alike. -/
theorem pairMatches_noninterference_witness :
    pairMatches (str "btc")
        ⟨str "p1", str "BTC", str "BTC", str "USDT", str "usdt-id", true, 1, 10, 2, 3⟩
      = pairMatches (str "btc")
        ⟨str "p2", str "BTC", str "BTC", str "USDT", str "usdt-id", false, 5, 500, 8, 0⟩ :=
  pairMatches_noninterference (str "btc") _ _ rfl rfl rfl rfl

/-- C2: `sortData` returns a permutation of its input whose key values are
non-decreasing for ascending direction and non-increasing for descending
direction. -/
theorem sortData_perm_monotone {T V : Type} [LinearOrder V] (S : List T) (key : T → V)
    (dir : Direction) :
    (sortData S key dir).Perm S
    ∧ (dir = .asc → (sortData S key dir).Pairwise (fun a b => key a ≤ key b))
    ∧ (dir = .desc → (sortData S key dir).Pairwise (fun a b => key b ≤ key a)) := by
  refine ⟨List.perm_insertionSort _ S, ?_, ?_⟩
  · rintro rfl
    haveI := sortRel_total key Direction.asc
    haveI := sortRel_trans key Direction.asc
    exact (List.sorted_insertionSort (fun a b => sortCmp key .asc a b ≤ 0) S).imp
      (fun h => (sortCmp_asc_le key _ _).mp h)
  · rintro rfl
    haveI := sortRel_total key Direction.desc
    haveI := sortRel_trans key Direction.desc
    exact (List.sorted_insertionSort (fun a b => sortCmp key .desc a b ≤ 0) S).imp
      (fun h => (sortCmp_desc_le key _ _).mp h)

/-- Witness for C2 at a concrete list, ascending by the identity key. -/
theorem sortData_perm_monotone_witness :
    (sortData [3, 1, 2] (fun n : Nat => n) Direction.asc).Perm [3, 1, 2]
    ∧ (sortData [3, 1, 2] (fun n : Nat => n) Direction.asc).Pairwise (fun a b => a ≤ b) :=
  ⟨(sortData_perm_monotone [3, 1, 2] (fun n => n) Direction.asc).1,
   (sortData_perm_monotone [3, 1, 2] (fun n => n) Direction.asc).2.1 rfl⟩

/-- C4: the pipeline never writes an existing array: every array reference
allocated before a `filteredPairs` or `sortData` call reads the same after
it, and each call returns a freshly allocated reference holding its
result. -/
theorem pipeline_no_mutation {V : Type} [LinearOrder V] (s : Store Pair) (r r2 : Nat)
    (key : Pair → V) (dir : Direction) (t : JStr) (h : r2 < s.arrays.length) :
    ((sortDataRef s r key dir).1).read r2 = s.read r2
    ∧ ((filterRef s r t).1).read r2 = s.read r2
    ∧ (sortDataRef s r key dir).2 = s.arrays.length
    ∧ (filterRef s r t).2 = s.arrays.length
    ∧ ((sortDataRef s r key dir).1).read (sortDataRef s r key dir).2
        = sortData (s.read r) key dir
    ∧ ((filterRef s r t).1).read (filterRef s r t).2 = filteredPairs (s.read r) t := by
  refine ⟨?_, ?_, rfl, rfl, ?_, ?_⟩
  · exact getD_append_of_lt _ _ _ _ h
  · exact getD_append_of_lt _ _ _ _ h
  · exact getD_append_length _ _ _
  · exact getD_append_length _ _ _

/-- A concrete sample pair for witnesses. -/
def samplePair : Pair :=
  ⟨str "pair-1", str "BTC", str "BTC", str "USDT", str "usdt-asset-id", true, 1, 100, 2, 4⟩

/-- Witness for C4 at a one-array store. -/
theorem pipeline_no_mutation_witness :
    ((sortDataRef (Store.mk [[samplePair]]) 0 (fun p => p.min_order_size) Direction.asc).1).read 0
        = (Store.mk [[samplePair]]).read 0
    ∧ ((filterRef (Store.mk [[samplePair]]) 0 []).1).read 0 = (Store.mk [[samplePair]]).read 0 :=
  ⟨(pipeline_no_mutation (Store.mk [[samplePair]]) 0 0 (fun p => p.min_order_size)
      Direction.asc [] (by decide)).1,
   (pipeline_no_mutation (Store.mk [[samplePair]]) 0 0 (fun p => p.min_order_size)
      Direction.asc [] (by decide)).2.1⟩

/-- C7: the derivation is a total function of its inputs; when the fetched
pairs data is absent it yields the empty sequence, and every pair it yields
comes from the fetched data. -/
theorem derivation_total (V : Type) [LinearOrder V] (pairsData : Option PairsResponse)
    (t : JStr) (cfg : Option ((Pair → V) × Direction)) :
    (pairsData = none → sortedPairsView V pairsData t cfg = [])
    ∧ ∀ p ∈ sortedPairsView V pairsData t cfg, ∃ d, pairsData = some d ∧ p ∈ d.pairs := by
  constructor
  · rintro rfl
    cases cfg with
    | none => rfl
    | some c => rfl
  · intro p hp
    cases pairsData with
    | none =>
      exfalso
      cases cfg with
      | none => exact (List.not_mem_nil p) hp
      | some c => exact (List.not_mem_nil p) hp
    | some d =>
      refine ⟨d, rfl, ?_⟩
      have hpf : p ∈ filteredPairs d.pairs t := by
        cases cfg with
        | none => exact hp
        | some c =>
          simp only [sortedPairsView, derivedFilteredPairs] at hp
          by_cases hlen : (filteredPairs d.pairs t).length > 0
          · rw [if_pos hlen] at hp
            exact (mem_sortData _ _ _ _).mp hp
          · rw [if_neg hlen] at hp
            exact hp
      unfold filteredPairs at hpf
      exact (List.mem_filter.mp hpf).1

/-- Witness for C7: absent data derives the empty sequence. -/
theorem derivation_total_witness :
    sortedPairsView Int none (str "btc") none = [] :=
  (derivation_total Int none (str "btc") none).1 rfl

/-- A concrete Axios-classified error whose response carries an empty
message body while the raw error text is nonempty. -/
def emptyMsgError : AxiosError :=
  ⟨none, str "Network Error", some []⟩

/-- C3 counterexample: when the server-provided message body is the empty
string, the claim says `details` carries that body (a server message is
present), but the code falls back to the raw error text because the empty
string is falsy under the `||` used to pick the details. -/
theorem normalizeError_claim_counterexample :
    (normalizeAssetsError emptyMsgError).details ≠ some (specClaimedDetails emptyMsgError) := by
  decide

/-- C3 amended: for every Axios-classified failure both fetchers produce
their fixed message and copy the transport code; `details` carries the
server-provided message body when it is present and nonempty, and the raw
error text when the server message is absent or empty. -/
theorem normalizeError_amended (e : AxiosError) :
    (normalizeAssetsError e).message = str "Failed to fetch assets"
    ∧ (normalizePairsError e).message = str "Failed to fetch trading pairs"
    ∧ (normalizeAssetsError e).code = e.code
    ∧ (normalizePairsError e).code = e.code
    ∧ (∀ s, e.responseDataMessage = some s → s ≠ [] →
        (normalizeAssetsError e).details = some s
        ∧ (normalizePairsError e).details = some s)
    ∧ ((e.responseDataMessage = none ∨ e.responseDataMessage = some []) →
        (normalizeAssetsError e).details = some e.message
        ∧ (normalizePairsError e).details = some e.message) := by
  refine ⟨rfl, rfl, rfl, rfl, ?_, ?_⟩
  · intro s hs hne
    constructor <;> simp [normalizeAssetsError, normalizePairsError, jsOrString, hs, hne]
  · rintro (h | h) <;>
      constructor <;> simp [normalizeAssetsError, normalizePairsError, jsOrString, h]

/-- The Axios error of the specification scenario: HTTP 500 whose body
message is "db down". -/
def scenario500 : AxiosError :=
  ⟨none, str "Request failed with status code 500", some (str "db down")⟩

/-- Witness for C3 amended at the HTTP 500 scenario. -/
theorem normalizeError_amended_witness :
    (normalizeAssetsError scenario500).message = str "Failed to fetch assets"
    ∧ (normalizeAssetsError scenario500).details = some (str "db down") :=
  ⟨(normalizeError_amended scenario500).1,
   ((normalizeError_amended scenario500).2.2.2.2.1 (str "db down") rfl (by decide)).1⟩

/-- A concrete assets-fetch failure for the render counterexample. -/
def assetsDownError : ApiError :=
  ⟨str "Failed to fetch assets", none, some (str "db down")⟩

/-- C8 counterexample: with the pairs fetch succeeded and the filter empty,
the pairs section renders the error alert when the assets fetch failed but
the cards when the assets fetch succeeded, so its rendered state is not a
function of the pairs outcome alone. -/
theorem sections_independence_counterexample :
    pairsSection Int (.failed assetsDownError) (.success ⟨[]⟩) [] none
      ≠ pairsSection Int (.success ⟨[]⟩) (.success ⟨[]⟩) [] none := by
  decide

/-- C8 amended: the assets section renders from the assets outcome alone, so
a pairs-fetch failure never blocks it; the pairs section is not symmetric:
with its own fetch settled and error-free it still shows the error alert
when the assets fetch failed, and it shows the derived cards when both
fetches succeeded. -/
theorem sections_independence_amended (V : Type) [LinearOrder V]
    (a : FetchOutcome AssetsResponse) (p p2 : FetchOutcome PairsResponse)
    (t : JStr) (cfg : Option ((Pair → V) × Direction)) :
    assetsSection a p = assetsSection a p2
    ∧ (∀ e, a = .failed e → isLoadingOf p = false → errorOf p = none →
        pairsSection V a p t cfg = .errorAlert)
    ∧ (∀ da dp, a = .success da → p = .success dp →
        pairsSection V a p t cfg = .cards (sortedPairsView V (some dp) t cfg)) := by
  refine ⟨rfl, ?_, ?_⟩
  · rintro e rfl hl he
    cases p with
    | loading => simp [isLoadingOf] at hl
    | failed pe => simp [errorOf] at he
    | success d => rfl
  · rintro da dp rfl rfl
    rfl

/-- Witness for C8 amended: the assets section is unchanged when the pairs
outcome flips from success to loading, and a settled, error-free pairs fetch
still yields the error alert under an assets failure. -/
theorem sections_independence_amended_witness :
    assetsSection (.failed assetsDownError) (.success ⟨[]⟩)
        = assetsSection (.failed assetsDownError) .loading
    ∧ pairsSection Int (.failed assetsDownError) (.success ⟨[]⟩) [] none
        = .errorAlert :=
  ⟨(sections_independence_amended Int (.failed assetsDownError) (.success ⟨[]⟩)
      .loading [] none).1,
   (sections_independence_amended Int (.failed assetsDownError) (.success ⟨[]⟩)
      .loading [] none).2.1 assetsDownError rfl rfl rfl⟩

end Registry
